import Mathlib

/-!
A shallow embedding of the `shopify-report` pipeline (order_puller.py,
Cleaner.py, Reporter.py) and proofs about its behaviour.

Modelling conventions:
* Monetary values flow through the pipeline as Python floats; we model a
  float that may be NaN as `Option ℚ` (`none` = NaN), with exact rational
  arithmetic in place of IEEE rounding.  NaN propagates through `+ - *`.
* A JSON object field is a `JField`: the key can be absent, present with a
  null value, present with a non-null value that does not parse as the
  target type, or present with a parsed value.
* After `pd.json_normalize`, a cell is a `Cell`: `np.nan` (missing key
  while the column exists), Python `None` (JSON null, or a column that was
  backfilled because the key is absent from every record), an unparsable
  non-null value, or a parsed value.  `parse_money` (`float(x)` with
  `except: 0.0`) maps `nan ↦ nan` (since `float(nan)` succeeds), and both
  `None` and unparsable values to `0.0`.
* Timestamp parsing (`pd.to_datetime`) and timezone conversion
  (`tz_convert`/`ZoneInfo`) are external library collaborators; they are
  abstracted as a parameter record `TsFuns` of pure functions, with
  instants and dates represented as integers.
-/

/-- A float value that may be NaN: `none` is NaN. -/
abbrev MVal : Type := Option ℚ

/-- NaN-propagating addition of floats. -/
def mAdd (a b : MVal) : MVal :=
  match a, b with
  | some x, some y => some (x + y)
  | _, _ => none

/-- NaN-propagating subtraction of floats. -/
def mSub (a b : MVal) : MVal :=
  match a, b with
  | some x, some y => some (x - y)
  | _, _ => none

/-- Python `sum` over floats (starts at `0.0`, NaN propagates).  `mAdd` is
commutative and associative, so folding from the right yields the same
value as Python's left-to-right accumulation. -/
def mSum (l : List MVal) : MVal := l.foldr mAdd (some 0)

/-- A JSON object field slot, as found in one raw record. -/
inductive JField (α : Type) where
  | absent
  | null
  | invalid
  | val (a : α)
deriving DecidableEq, Repr

/-- Key present in this record (`json_normalize` creates the column iff some
record has the key). -/
def JField.present {α : Type} : JField α → Bool
  | .absent => false
  | _ => true

/-- pandas `notna` on the cell this field produces: true iff the value is
present and non-null. -/
def JField.notna {α : Type} : JField α → Bool
  | .invalid => true
  | .val _ => true
  | _ => false

/-- A DataFrame cell (or raw Python value) as seen by the coercion helpers. -/
inductive Cell (α : Type) where
  | nan
  | pynull
  | invalid
  | val (a : α)
deriving DecidableEq, Repr

/-- The cell a `JField` produces in a normalized DataFrame: a missing key
becomes `np.nan` when the column exists (some record has the key), and the
whole column is backfilled with `None` when no record has it (Cleaner.py
lines 79-86 / 115-117); JSON null stays `None`. -/
def cellOf {α : Type} (colExists : Bool) : JField α → Cell α
  | .absent => if colExists then .nan else .pynull
  | .null => .pynull
  | .invalid => .invalid
  | .val a => .val a

/-- `parse_money` (Cleaner.py lines 29-33): `float(x)` with `except: 0.0`.
`float(nan)` succeeds and returns NaN; `float(None)` and unparsable strings
raise and give `0.0`. -/
def parse_money (x : Cell ℚ) : MVal :=
  match x with
  | .nan => none
  | .pynull => some 0
  | .invalid => some 0
  | .val q => some q

/-- `pd.to_numeric(_, errors="coerce").fillna(0).astype(int)` applied to a
quantity cell (Cleaner.py line 122). -/
def to_numeric_fill0 (x : Cell ℤ) : ℤ :=
  match x with
  | .val n => n
  | _ => 0

/-- `pd.to_numeric(_, errors="coerce").fillna(0)` on the lifetime order
count column (Cleaner.py line 102). -/
def count_numeric_fill0 (x : JField ℚ) : ℚ :=
  match x with
  | .val q => q
  | _ => 0

/-- One shipping line entry (`shipping_lines` element). -/
structure ShippingLine where
  price : Cell ℚ
deriving DecidableEq, Repr

/-- One refund transaction. -/
structure Transaction where
  kind : Option String
  amount : Cell ℚ
deriving DecidableEq, Repr

/-- One refund entry. -/
structure Refund where
  transactions : Option (List Transaction)
deriving DecidableEq, Repr

/-- One line item record, with the fields Cleaner.py extracts. -/
structure LineItem where
  sku : Option String
  title : Option String
  variant_id : Option ℤ
  product_id : Option ℤ
  quantity : JField ℤ
  price : JField ℚ
  total_discount : JField ℚ
deriving DecidableEq, Repr

/-- One raw order, after `pd.json_normalize` dot-path flattening of the
nested `customer` object; list-valued fields stay intact. -/
structure Order where
  id : Option ℤ
  name : Option String
  order_number : Option ℤ
  created_at : Option String
  currency : Option String
  subtotal_price : JField ℚ
  total_discounts : JField ℚ
  total_tax : JField ℚ
  shipping_lines : Option (List ShippingLine)
  refunds : Option (List Refund)
  line_items : Option (List LineItem)
  customer_id : JField ℤ
  customer_orders_count : JField ℚ
deriving DecidableEq, Repr

/-- `sum_shipping` (Cleaner.py lines 35-38): sums `parse_money` of each
entry's `price` when the field holds a list, else `0.0`. -/
def sum_shipping (x : Option (List ShippingLine)) : MVal :=
  match x with
  | some l => mSum (l.map (fun s => parse_money s.price))
  | none => some 0

/-- `sum_refunds` (Cleaner.py lines 40-48): over every refund entry's
transactions, add `parse_money(amount)` of those whose kind is "refund". -/
def sum_refunds (x : Option (List Refund)) : MVal :=
  match x with
  | none => some 0
  | some refs =>
      mSum ((refs.flatMap
        (fun r => (r.transactions.getD []).filter
          (fun t => t.kind = some "refund"))).map
            (fun t => parse_money t.amount))

/-- The timestamp library collaborators (`pd.to_datetime`, `tz_convert`
with `ZoneInfo`, `.dt.date`), abstracted as pure functions on integer
instants. `parse` is `pd.to_datetime(_, utc=True, errors="coerce")`
(`none` = NaT); `tzconv` is the timezone conversion, `none` when `ZoneInfo`
raises; `dateOf` is the local date of an instant. -/
structure TsFuns where
  parse : String → Option ℤ
  tzconv : ℤ → String → Option ℤ
  dateOf : ℤ → ℤ

/-- `to_local_ts` (Cleaner.py lines 50-57): falsy (missing or empty) input
gives NaT; an unparsable string gives NaT; otherwise the converted instant,
falling back to the unconverted one when the timezone lookup raises. -/
def to_local_ts (F : TsFuns) (iso : Option String) (tz : String) : Option ℤ :=
  match iso with
  | none => none
  | some s =>
      if s = "" then none
      else
        match F.parse s with
        | none => none
        | some dt => some ((F.tzconv dt tz).getD dt)

/-- Which of the structurally-expected columns exist in the raw input (the
`cols` set captured on Cleaner.py line 76, and the line-item columns of the
`json_normalize` on line 114). -/
structure Cols where
  sub : Bool
  disc : Bool
  tax : Bool
  liQty : Bool
  liPrice : Bool
  liDisc : Bool
deriving DecidableEq, Repr

/-- Column-existence flags computed from the whole raw order set. -/
def colsOf (orders : List Order) : Cols :=
  { sub := orders.any (fun o => o.subtotal_price.present)
    disc := orders.any (fun o => o.total_discounts.present)
    tax := orders.any (fun o => o.total_tax.present)
    liQty := orders.any (fun o => (o.line_items.getD []).any (fun li => li.quantity.present))
    liPrice := orders.any (fun o => (o.line_items.getD []).any (fun li => li.price.present))
    liDisc := orders.any (fun o => (o.line_items.getD []).any (fun li => li.total_discount.present)) }

/-- Tier-1 condition of the repeat-customer fallback (Cleaner.py line 100):
the `customer.orders_count` column exists in the raw input and is non-null
somewhere. -/
def tier1_cond (orders : List Order) : Bool :=
  orders.any (fun o => o.customer_orders_count.present) &&
    orders.any (fun o => o.customer_orders_count.notna)

/-- Tier-2 condition (Cleaner.py line 104): the `customer.id` column exists
in the raw input. -/
def tier2_cond (orders : List Order) : Bool :=
  orders.any (fun o => o.customer_id.present)

/-- `orders_df.groupby("customer.id")["id"].nunique()` evaluated at a
non-null customer id: the number of distinct non-null order ids among
orders with that customer id (Cleaner.py line 105). -/
def nunique_ids (orders : List Order) (c : ℤ) : ℕ :=
  (((orders.filter (fun o => o.customer_id = JField.val c)).filterMap
    (fun o => o.id)).dedup).length

/-- The repeat-customer flag (Cleaner.py lines 99-108), evaluated once over
the full order set.  Null group keys are dropped by `groupby`, and
`cust_counts.get(NaN, 0)` returns the default, so rows without a non-null
customer id are flagged `False` in tier 2. -/
def is_repeat_customer (orders : List Order) (o : Order) : Bool :=
  if tier1_cond orders then
    decide (count_numeric_fill0 o.customer_orders_count > 1)
  else if tier2_cond orders then
    match o.customer_id with
    | .val c => decide (nunique_ids orders c > 1)
    | _ => false
  else false

/-- One row of the final `clean_orders.csv` table, with the renamed public
column names (Cleaner.py lines 131-156). -/
structure Row where
  order_id : Option ℤ
  order_name : Option String
  order_number : Option ℤ
  order_date : Option ℤ
  created_at_local : Option ℤ
  currency : Option String
  is_repeat_customer : Bool
  subtotal_price : MVal
  total_discounts : MVal
  refunds_amount : MVal
  total_tax : MVal
  shipping_amount : MVal
  sku : Option String
  title : Option String
  variant_id : Option ℤ
  product_id : Option ℤ
  quantity : ℤ
  price : MVal
  line_discount : MVal
  line_gross : MVal
  line_net : MVal
  net_revenue : MVal
deriving DecidableEq, Repr

/-- The all-absent line item: what a row exploded from an empty or missing
`line_items` list would carry into the line-item columns. -/
def emptyItem : LineItem :=
  { sku := none, title := none, variant_id := none, product_id := none
    quantity := .absent, price := .absent, total_discount := .absent }

/-- The row built for one (order, optional line item) pair, with the derived
fields of Cleaner.py lines 88-129. -/
def mkRow (F : TsFuns) (tz : String) (c : Cols) (rep : Bool) (o : Order)
    (it : Option LineItem) : Row :=
  let sub := parse_money (cellOf c.sub o.subtotal_price)
  let disc := parse_money (cellOf c.disc o.total_discounts)
  let tax := parse_money (cellOf c.tax o.total_tax)
  let ship := sum_shipping o.shipping_lines
  let refs := sum_refunds o.refunds
  let localTs := to_local_ts F o.created_at tz
  let li := it.getD emptyItem
  let qty := to_numeric_fill0 (cellOf c.liQty li.quantity)
  let price := parse_money (cellOf c.liPrice li.price)
  let ldisc := parse_money (cellOf c.liDisc li.total_discount)
  let gross := price.map (fun p => (qty : ℚ) * p)
  { order_id := o.id, order_name := o.name, order_number := o.order_number
    order_date := localTs.map F.dateOf, created_at_local := localTs
    currency := o.currency, is_repeat_customer := rep
    subtotal_price := sub, total_discounts := disc, refunds_amount := refs
    total_tax := tax, shipping_amount := ship
    sku := li.sku, title := li.title
    variant_id := li.variant_id, product_id := li.product_id
    quantity := qty, price := price, line_discount := ldisc
    line_gross := gross, line_net := mSub gross ldisc
    net_revenue := mSub (mSub sub disc) refs }

/-- `explode("line_items")` for one order followed by the per-row field
extraction: one row per line item, one placeholder row when the list is
empty or missing. -/
def flattenOrder (F : TsFuns) (tz : String) (c : Cols) (rep : Bool)
    (o : Order) : List Row :=
  match o.line_items with
  | some (i :: is) => (i :: is).map (fun x => mkRow F tz c rep o (some x))
  | _ => [mkRow F tz c rep o none]

/-- True iff some order has an empty or missing `line_items` list.  For such
an order, `explode` leaves a `NaN`/`None` placeholder in the exploded
column, and `pd.json_normalize(exploded["line_items"])` (Cleaner.py line
114) raises `AttributeError` on that non-dict record, aborting the run. -/
def hasEmptyLineItems (orders : List Order) : Bool :=
  orders.any (fun o =>
    match o.line_items with
    | some (_ :: _) => false
    | _ => true)

/-- Strict "less" on sort keys with missing values last
(`na_position="last"`). -/
def optIntLT (a b : Option ℤ) : Bool :=
  match a, b with
  | some x, some y => x < y
  | some _, none => true
  | _, _ => false

/-- Non-strict version of `optIntLT`. -/
def optIntLE (a b : Option ℤ) : Bool :=
  match a, b with
  | some x, some y => x ≤ y
  | some _, none => true
  | none, some _ => false
  | none, none => true

/-- The `sort_values(["order_date", "order_id"], ascending=[True, True])`
key order (Cleaner.py line 155). -/
def rowLE (r s : Row) : Bool :=
  optIntLT r.order_date s.order_date ||
    (r.order_date = s.order_date && optIntLE r.order_id s.order_id)

/-- The Cleaner's `main` as a function from the raw order collection and the
resolved timezone to the `clean_orders.csv` table (Cleaner.py lines
59-160): it aborts with an error when any order has an empty or missing
line-item list (the `json_normalize` crash above), and otherwise produces
the sorted flattened table. -/
def clean_orders (F : TsFuns) (tz : String) (orders : List Order) :
    Except Unit (List Row) :=
  if hasEmptyLineItems orders then .error ()
  else
    .ok (List.insertionSort (fun r s => rowLE r s = true)
      (orders.flatMap
        (fun o => flattenOrder F tz (colsOf orders)
          (is_repeat_customer orders o) o)))

/-- `drop_duplicates(subset=["order_id"])` (Reporter.py line 34): keep the
first row for each `order_id` value (pandas treats NaN ids as equal
duplicates too). -/
def dropDupGo (seen : List (Option ℤ)) : List Row → List Row
  | [] => []
  | r :: rs =>
      if r.order_id ∈ seen then dropDupGo seen rs
      else r :: dropDupGo (r.order_id :: seen) rs

/-- The deduplicated order-level view of the flat table. -/
def drop_duplicates (rows : List Row) : List Row := dropDupGo [] rows

/-- `Series.sum()` with the default `skipna=True`: NaN cells contribute
nothing, and the empty sum is `0.0`. -/
def sumSkipna (l : List MVal) : ℚ := (l.map (fun x => x.getD 0)).sum

/-- `total_orders` (Reporter.py line 37). -/
def total_orders (rows : List Row) : ℕ := (drop_duplicates rows).length

/-- `total_revenue` (Reporter.py line 38). -/
def total_revenue (rows : List Row) : ℚ :=
  sumSkipna ((drop_duplicates rows).map (fun r => r.net_revenue))

/-- Average order value (Reporter.py line 39). -/
def aov (rows : List Row) : ℚ :=
  if total_orders rows = 0 then 0
  else total_revenue rows / (total_orders rows : ℚ)

/-- `orders.groupby("order_date")["net_revenue"].sum()` sorted ascending
(Reporter.py line 66): null dates are dropped (`dropna=True`), group keys
come out sorted, each group sums with `skipna`. -/
def daily_revenue (rows : List Row) : List (ℤ × ℚ) :=
  let ords := drop_duplicates rows
  let dates := List.insertionSort (· ≤ ·)
    ((ords.filterMap (fun r => r.order_date)).dedup)
  dates.map (fun d =>
    (d, sumSkipna ((ords.filter (fun r => r.order_date = some d)).map
      (fun r => r.net_revenue))))

/-- The (sku, title) group keys of `df.groupby(["sku", "title"])`
(Reporter.py lines 69-80), in first-occurrence order: rows whose sku or
title is null are dropped (`dropna=True`). -/
def groupKeys (rows : List Row) : List (String × String) :=
  (rows.filterMap (fun r =>
    match r.sku, r.title with
    | some s, some t => some (s, t)
    | _, _ => none)).dedup

/-- Ascending lexicographic order on (sku, title) keys, as `groupby`'s
`sort=True` emits groups. -/
def keyLE (a b : String × String) : Bool :=
  match compare a.1 b.1 with
  | .lt => true
  | .gt => false
  | .eq => decide (compare a.2 b.2 ≠ Ordering.gt)

/-- The rows of one (sku, title) group. -/
def groupRows (rows : List Row) (k : String × String) : List Row :=
  rows.filter (fun r => decide (r.sku = some k.1 ∧ r.title = some k.2))

/-- Summed quantity of one group. -/
def groupQty (rows : List Row) (k : String × String) : ℤ :=
  ((groupRows rows k).map (fun r => r.quantity)).sum

/-- Summed `line_net` of one group (`skipna` as in pandas). -/
def groupNet (rows : List Row) (k : String × String) : ℚ :=
  sumSkipna ((groupRows rows k).map (fun r => r.line_net))

/-- `df.groupby(["sku","title"], as_index=False)["quantity"].sum()`:
the grouped frame, keys in ascending key order. -/
def grouped_units (rows : List Row) : List ((String × String) × ℤ) :=
  (List.insertionSort (fun a b => keyLE a b = true) (groupKeys rows)).map
    (fun k => (k, groupQty rows k))

/-- Same for `line_net`. -/
def grouped_rev (rows : List Row) : List ((String × String) × ℚ) :=
  (List.insertionSort (fun a b => keyLE a b = true) (groupKeys rows)).map
    (fun k => (k, groupNet rows k))

/-- `products_units` (Reporter.py lines 69-74): sort the grouped frame by
summed quantity descending (a stable sort, as numpy's sort is on frames
this small) and keep the first 10 rows. -/
def products_units (rows : List Row) : List ((String × String) × ℤ) :=
  (List.insertionSort (fun a b => b.2 ≤ a.2) (grouped_units rows)).take 10

/-- `products_rev` (Reporter.py lines 75-80). -/
def products_rev (rows : List Row) : List ((String × String) × ℚ) :=
  (List.insertionSort (fun a b => b.2 ≤ a.2) (grouped_rev rows)).take 10

/-- Python `str.find` for a single character: index of the first
occurrence, `-1` when absent. -/
def pyFind (s : List Char) (c : Char) : ℤ :=
  match s with
  | [] => -1
  | x :: xs =>
      if x = c then 0
      else
        match pyFind xs c with
        | -1 => -1
        | n => n + 1

/-- Python slicing `s[a:b]` with negative-index and clamping semantics. -/
def pySlice (s : List Char) (a b : ℤ) : List Char :=
  let n : ℤ := s.length
  let norm : ℤ → ℕ := fun i => (if i < 0 then max 0 (n + i) else min i n).toNat
  (s.take (norm b)).drop (norm a)

/-- Substring containment, Python's `needle in hay`. -/
def strContains (hay needle : List Char) : Bool :=
  match hay with
  | [] => needle.isEmpty
  | _ :: t => needle.isPrefixOf hay || strContains t needle

/-- Python `str.split` on a single separator character: `""` splits to
`[""]`, and adjacent separators produce empty fields. -/
def splitOnChar (c : Char) : List Char → List (List Char)
  | [] => [[]]
  | x :: xs =>
      match splitOnChar c xs, decide (x = c) with
      | r, true => [] :: r
      | [], false => [[x]]
      | h :: t, false => (x :: h) :: t

/-- The whitespace characters Python's `str.strip` removes. -/
def isPySpace (c : Char) : Bool :=
  c = ' ' || c = '\t' || c = '\n' || c = '\r' ||
    c = Char.ofNat 11 || c = Char.ofNat 12

/-- Python `str.strip()`. -/
def pyStrip (l : List Char) : List Char :=
  ((l.dropWhile isPySpace).reverse.dropWhile isPySpace).reverse

/-- `extract_next_link` (order_puller.py lines 22-32): a falsy header gives
`None`; otherwise split on commas, strip each part, and for the first part
containing `rel="next"` return the text between the first `<` and the first
`>` (with Python's find/slice conventions). -/
def extract_next_link (h : Option String) : Option String :=
  match h with
  | none => none
  | some s =>
      if s = "" then none
      else
        let parts := (splitOnChar ',' s.data).map pyStrip
        match parts.find? (fun p =>
            strContains p ("rel=\"next\"".data)) with
        | none => none
        | some p =>
            let start := pyFind p '<' + 1
            let stop := pyFind p '>'
            some ⟨pySlice p start stop⟩

/-- One scripted HTTP response for the fetch loop: status code, `Link`
header, and the decoded `orders` array of the body. -/
structure Response where
  status : ℕ
  link : Option String
  orders : List Order
deriving Repr

/-- One issued request: the URL and whether the caller-supplied query
parameters were attached (`params=None` after the first page). -/
structure Request where
  url : String
  params : Option (List (String × String))
deriving DecidableEq, Repr

/-- Outcome of the fetch loop, with the full request trace. -/
inductive FetchResult where
  | ok (reqs : List Request) (orders : List Order)
  | httpError (reqs : List Request) (status : ℕ)
  | exhausted (reqs : List Request)
deriving Repr

/-- The `while True` loop of `fetch_orders` (order_puller.py lines 47-70),
driven by a finite script of responses (one consumed per issued request):
429 sleeps and retries the same request; other non-2xx/3xx statuses raise;
otherwise the batch is accumulated and the loop follows the `rel="next"`
link (with the parameters dropped) until the link is falsy. -/
def fetchGo (url : String) (params : Option (List (String × String)))
    (reqs : List Request) (acc : List Order) :
    List Response → FetchResult
  | [] => .exhausted reqs
  | r :: rest =>
      let reqs' := reqs ++ [⟨url, params⟩]
      if r.status = 429 then fetchGo url params reqs' acc rest
      else if 400 ≤ r.status then .httpError reqs' r.status
      else
        let acc' := acc ++ r.orders
        match extract_next_link r.link with
        | none => .ok reqs' acc'
        | some l =>
            if l = "" then .ok reqs' acc'
            else fetchGo l none reqs' acc' rest

/-- The query parameters built on order_puller.py lines 38-42. -/
def mkParams (created_at_min : String) : List (String × String) :=
  [("limit", "250"), ("created_at_min", created_at_min), ("status", "any")]

/-- `fetch_orders` (order_puller.py lines 34-70) against a response script:
start at the base URL with the caller-supplied filter parameters. -/
def fetch_orders (base : String) (created_at_min : String)
    (script : List Response) : FetchResult :=
  fetchGo base (some (mkParams created_at_min)) [] [] script

/-- The decoded `/shop.json` payload: the `shop` object may be missing, and
its two timezone fields may each be missing, null, or a string. -/
structure ShopPayload where
  shop : Option (Option String × Option String)
deriving Repr

/-- Python's `a or b` for a string-or-None left operand: `None` and the
empty string are falsy. -/
def pyOr (a : Option String) (b : String) : String :=
  match a with
  | some s => if s = "" then b else s
  | none => b

/-- `get_shop_timezone` (Cleaner.py lines 19-27): the whole request/parse is
wrapped in `try/except` returning "UTC"; on success the result is
`shop.get("iana_timezone") or shop.get("timezone") or "UTC"`, where
`shop` is `payload.get("shop", {})`. -/
def get_shop_timezone (resp : Except Unit ShopPayload) : String :=
  match resp with
  | .error _ => "UTC"
  | .ok p =>
      match p.shop with
      | none => "UTC"
      | some (iana, legacy) => pyOr iana (pyOr legacy "UTC")

/-- Spec-side money coercion, for refinement comparison: "any unparsable or
missing monetary value coerces to 0.0". -/
def money_spec (f : JField ℚ) : ℚ :=
  match f with
  | .val q => q
  | _ => 0

/-- Spec-side coercion of a raw transaction amount. -/
def amount_spec (x : Cell ℚ) : ℚ :=
  match x with
  | .val q => q
  | _ => 0

/-- Spec-side refunds total, for refinement comparison: "sum of the amounts
of transactions whose kind equals \"refund\" across all of the order's
refund entries (0 when there are no refund entries)". -/
def refunds_spec (x : Option (List Refund)) : ℚ :=
  match x with
  | none => 0
  | some refs =>
      ((refs.flatMap
        (fun r => (r.transactions.getD []).filter
          (fun t => t.kind = some "refund"))).map
            (fun t => amount_spec t.amount)).sum

/-- Spec-side quantity coercion: "quantity defaults to 0 when unparsable"
(or missing). -/
def qty_spec (f : JField ℤ) : ℤ :=
  match f with
  | .val n => n
  | _ => 0

/-- `mSum` is NaN iff some summand is, and otherwise adds the values. -/
theorem mSum_eq (l : List MVal) :
    mSum l = if l.all Option.isSome then some ((l.map (fun x => x.getD 0)).sum)
      else none := by
  induction l with
  | nil => simp [mSum]
  | cons x xs ih =>
      simp only [mSum, List.foldr_cons] at *
      rw [ih]
      cases x with
      | none => simp [mAdd]
      | some q =>
          by_cases h : xs.all Option.isSome <;> simp [h, mAdd]

/-- A money cell that parses non-NaN parses exactly to the spec's coercion. -/
theorem parse_money_cellOf_eq_spec (b : Bool) (f : JField ℚ) (q : ℚ)
    (h : parse_money (cellOf b f) = some q) : q = money_spec f := by
  cases f <;> cases b <;>
    simp [cellOf, parse_money, money_spec] at h ⊢ <;> exact h.symm

/-- When `sum_refunds` is non-NaN it computes the spec's refunds total. -/
theorem sum_refunds_eq_spec (x : Option (List Refund))
    (h : (sum_refunds x).isSome) : sum_refunds x = some (refunds_spec x) := by
  cases x with
  | none => simp [sum_refunds, refunds_spec]
  | some refs =>
      simp only [sum_refunds, refunds_spec] at h ⊢
      rw [mSum_eq] at h ⊢
      by_cases hall : ((refs.flatMap
          (fun r => (r.transactions.getD []).filter
            (fun t => t.kind = some "refund"))).map
              (fun t => parse_money t.amount)).all Option.isSome
      · rw [if_pos hall]
        congr 1
        rw [List.map_map]
        congr 1
        apply List.map_congr_left
        intro t ht
        have h2 := (List.all_eq_true.mp hall) _ (List.mem_map_of_mem _ ht)
        cases ha : t.amount <;>
          simp [Function.comp, parse_money, amount_spec, ha] at h2 ⊢
      · rw [if_neg hall] at h; simp at h

/-- Every row produced by flattening an order is `mkRow` of that order and
some optional line item. -/
theorem exists_mkRow_of_mem_flattenOrder {F : TsFuns} {tz : String}
    {c : Cols} {rep : Bool} {o : Order} {r : Row}
    (h : r ∈ flattenOrder F tz c rep o) :
    ∃ it, r = mkRow F tz c rep o it := by
  unfold flattenOrder at h
  split at h
  · obtain ⟨x, _, rfl⟩ := List.mem_map.mp h
    exact ⟨some x, rfl⟩
  · simp only [List.mem_singleton] at h
    exact ⟨none, h⟩

/-- The tier-1 test reduces to "non-null somewhere", since a non-null cell
implies the key is present in that record. -/
theorem tier1_cond_eq_any_notna (orders : List Order) :
    tier1_cond orders =
      orders.any (fun o => o.customer_orders_count.notna) := by
  unfold tier1_cond
  cases hn : orders.any (fun o => o.customer_orders_count.notna) with
  | false => simp [hn]
  | true =>
      simp only [hn, Bool.and_true]
      obtain ⟨o, ho, hno⟩ := List.any_eq_true.mp hn
      refine List.any_eq_true.mpr ⟨o, ho, ?_⟩
      cases h : o.customer_orders_count <;>
        simp [JField.notna, JField.present, h] at hno ⊢

/-- A timestamp-library stub: nothing parses, no timezone resolves. -/
def F0 : TsFuns := ⟨fun _ => none, fun _ _ => none, fun d => d⟩

/-- An order record with every field missing. -/
def baseOrder : Order :=
  { id := none, name := none, order_number := none, created_at := none
    currency := none, subtotal_price := .absent, total_discounts := .absent
    total_tax := .absent, shipping_lines := none, refunds := none
    line_items := none, customer_id := .absent
    customer_orders_count := .absent }

/-- Customer 7's first order. -/
def oA1 : Order := { baseOrder with id := some 1, customer_id := .val 7 }

/-- Customer 7's second order. -/
def oA2 : Order := { baseOrder with id := some 2, customer_id := .val 7 }

/-- Customer 8's only order. -/
def oB1 : Order := { baseOrder with id := some 3, customer_id := .val 8 }

/-- An order set with no lifetime order-count field anywhere: customer 7 has
two orders, customer 8 has one. -/
def exC3 : List Order := [oA1, oA2, oB1]

/-- C9: the Timezone Resolver never raises (it is a total function of the
request outcome): every failure outcome yields "UTC", and on success it
prefers a non-empty `iana_timezone`, then a non-empty legacy `timezone`,
then "UTC" (Python's `or` chain treats `None` and `""` as falsy). -/
theorem c9_timezone_resolver (resp : Except Unit ShopPayload) :
    (resp = .error () → get_shop_timezone resp = "UTC") ∧
    (∀ sp, resp = .ok sp → sp.shop = none → get_shop_timezone resp = "UTC") ∧
    (∀ iana legacy, resp = .ok ⟨some (some iana, legacy)⟩ → iana ≠ "" →
      get_shop_timezone resp = iana) ∧
    (∀ iana legacy, resp = .ok ⟨some (iana, some legacy)⟩ →
      (iana = none ∨ iana = some "") → legacy ≠ "" →
      get_shop_timezone resp = legacy) ∧
    (∀ iana legacy, resp = .ok ⟨some (iana, legacy)⟩ →
      (iana = none ∨ iana = some "") → (legacy = none ∨ legacy = some "") →
      get_shop_timezone resp = "UTC") := by
  refine ⟨?_, ?_, ?_, ?_, ?_⟩
  · rintro rfl; rfl
  · rintro sp rfl h
    simp [get_shop_timezone, h]
  · rintro iana legacy rfl h
    simp [get_shop_timezone, pyOr, h]
  · rintro iana legacy rfl h hl
    rcases h with rfl | rfl <;> simp [get_shop_timezone, pyOr, hl]
  · rintro iana legacy rfl h hl
    rcases h with rfl | rfl <;> rcases hl with rfl | rfl <;>
      simp [get_shop_timezone, pyOr]

/-- Concrete instance of `c9_timezone_resolver`: a successful response with
a populated IANA field resolves to it. -/
theorem c9_witness :
    get_shop_timezone (.ok ⟨some (some "America/Phoenix", some "MST")⟩) =
      "America/Phoenix" :=
  (c9_timezone_resolver _).2.2.1 "America/Phoenix" (some "MST") rfl (by decide)

/-- C8: the Normalizer is a deterministic function of the raw order
collection and the resolved timezone (given fixed timestamp-library
behaviour): two runs on equal inputs produce equal `clean_orders` tables,
hence byte-identical CSV serializations. -/
theorem c8_normalizer_deterministic (F : TsFuns) (tz tz' : String)
    (orders orders' : List Order)
    (horders : orders = orders') (htz : tz = tz') :
    clean_orders F tz orders = clean_orders F tz' orders' := by
  subst horders htz; rfl

/-- Concrete instance of `c8_normalizer_deterministic`. -/
theorem c8_witness :
    clean_orders F0 "UTC" exC3 = clean_orders F0 "UTC" exC3 :=
  c8_normalizer_deterministic F0 "UTC" "UTC" exC3 exC3 rfl rfl

/-- C3: the repeat-customer flag is a three-tier fallback over the full
order set.  If the lifetime order-count field is present and non-null for
at least one order, a row is flagged iff its (numeric-coerced) count
exceeds 1; otherwise, if a customer-identifier column is present, a row
with customer id `c` is flagged iff the number of distinct order ids with
customer id `c` exceeds 1 (and a row with no non-null customer id is
flagged false); otherwise every row is flagged false. -/
theorem c3_repeat_customer (orders : List Order) (o : Order)
    (_ho : o ∈ orders) :
    ((orders.any fun o' => o'.customer_orders_count.notna) = true →
      is_repeat_customer orders o =
        decide (count_numeric_fill0 o.customer_orders_count > 1)) ∧
    ((orders.any fun o' => o'.customer_orders_count.notna) = false →
      (orders.any fun o' => o'.customer_id.present) = true →
      (∀ c : ℤ, o.customer_id = JField.val c →
        is_repeat_customer orders o = decide (nunique_ids orders c > 1)) ∧
      (o.customer_id.notna = false → is_repeat_customer orders o = false)) ∧
    ((orders.any fun o' => o'.customer_orders_count.notna) = false →
      (orders.any fun o' => o'.customer_id.present) = false →
      is_repeat_customer orders o = false) := by
  refine ⟨?_, ?_, ?_⟩
  · intro h1
    unfold is_repeat_customer
    rw [tier1_cond_eq_any_notna, h1]
    simp
  · intro h1 h2
    constructor
    · intro c hc
      unfold is_repeat_customer
      rw [tier1_cond_eq_any_notna, h1]
      simp [tier2_cond, h2, hc]
    · intro hn
      unfold is_repeat_customer
      rw [tier1_cond_eq_any_notna, h1]
      cases h : o.customer_id <;>
        simp [tier2_cond, h2, h, JField.notna] at hn ⊢
  · intro h1 h2
    unfold is_repeat_customer
    rw [tier1_cond_eq_any_notna, h1]
    simp [tier2_cond, h2]

/-- Concrete instance of `c3_repeat_customer`: with no lifetime-count field,
customer 7 (two orders) is flagged repeat, customer 8 (one order) is not. -/
theorem c3_witness :
    is_repeat_customer exC3 oA1 = true ∧
      is_repeat_customer exC3 oB1 = false := by
  have hA := ((c3_repeat_customer exC3 oA1 (by decide)).2.1
    (by decide) (by decide)).1 7 rfl
  have hB := ((c3_repeat_customer exC3 oB1 (by decide)).2.1
    (by decide) (by decide)).1 8 rfl
  rw [hA, hB]
  exact ⟨by decide, by decide⟩

/-- C7: for a script of three successful pages in which the first two
responses designate a next-page link and the third does not, the fetch
loop issues exactly three requests — the first with the caller-supplied
filter parameters, the later two with only the opaque link and no
parameters — and returns the three batches concatenated in page order. -/
theorem c7_pagination (s1 s2 s3 : ℕ) (h1 h2 h3 : Option String)
    (l1 l2 : String) (b1 b2 b3 : List Order) (base cmin : String)
    (hs1 : s1 < 400) (hs2 : s2 < 400) (hs3 : s3 < 400)
    (he1 : extract_next_link h1 = some l1) (hl1 : l1 ≠ "")
    (he2 : extract_next_link h2 = some l2) (hl2 : l2 ≠ "")
    (he3 : extract_next_link h3 = none ∨ extract_next_link h3 = some "") :
    fetch_orders base cmin [⟨s1, h1, b1⟩, ⟨s2, h2, b2⟩, ⟨s3, h3, b3⟩] =
      .ok [⟨base, some (mkParams cmin)⟩, ⟨l1, none⟩, ⟨l2, none⟩]
        (b1 ++ b2 ++ b3) := by
  have n1 : ¬ s1 = 429 := by omega
  have n2 : ¬ s2 = 429 := by omega
  have n3 : ¬ s3 = 429 := by omega
  have m1 : ¬ 400 ≤ s1 := by omega
  have m2 : ¬ 400 ≤ s2 := by omega
  have m3 : ¬ 400 ≤ s3 := by omega
  rcases he3 with he3 | he3 <;>
    simp [fetch_orders, fetchGo, n1, n2, n3, m1, m2, m3,
      he1, he2, he3, hl1, hl2]

/-- Concrete instance of `c7_pagination` with literal `Link` headers parsed
by `extract_next_link`. -/
theorem c7_witness :
    fetch_orders "u0" "2024-01-01"
      [⟨200, some "<u1>; rel=\"next\"", [oA1]⟩,
       ⟨200, some "<u2>; rel=\"next\"", [oA2]⟩,
       ⟨200, none, [oB1]⟩] =
      .ok [⟨"u0", some (mkParams "2024-01-01")⟩, ⟨"u1", none⟩, ⟨"u2", none⟩]
        ([oA1] ++ [oA2] ++ [oB1]) :=
  c7_pagination 200 200 200 _ _ none "u1" "u2" [oA1] [oA2] [oB1] "u0"
    "2024-01-01" (by omega) (by omega) (by omega) (by decide) (by decide)
    (by decide) (by decide) (Or.inl rfl)

/-- A fully-populated line item. -/
def liA : LineItem :=
  ⟨some "A", some "Widget", some 11, some 21, .val 2, .val 10, .val 1⟩

/-- A second fully-populated line item. -/
def liB : LineItem :=
  ⟨some "B", some "Gadget", some 12, some 22, .val 1, .val 5, .val 0⟩

/-- A line item whose `price` and `total_discount` keys are absent. -/
def liNoPrice : LineItem :=
  ⟨some "C", some "Gizmo", some 13, some 23, .val 3, .absent, .absent⟩

/-- `to_numeric(...).fillna(0)` on a quantity cell agrees with the spec's
"quantity defaults to 0" coercion whatever the column situation is. -/
theorem to_numeric_cellOf_eq_qty_spec (b : Bool) (f : JField ℤ) :
    to_numeric_fill0 (cellOf b f) = qty_spec f := by
  cases f <;> cases b <;> simp [cellOf, to_numeric_fill0, qty_spec]

/-- `parse_money` yields a non-NaN number on every cell except `np.nan`. -/
theorem parse_money_isSome_of_ne_nan (x : Cell ℚ) (h : x ≠ Cell.nan) :
    ∃ q, parse_money x = some q := by
  cases x with
  | nan => exact absurd rfl h
  | pynull => exact ⟨0, rfl⟩
  | invalid => exact ⟨0, rfl⟩
  | val q => exact ⟨q, rfl⟩

/-- C2 (amended): on every row flattened from an order whose
`subtotal_price` and `total_discounts` cells parse to a non-NaN number and
whose refund amounts are non-NaN, `net_revenue` equals
`subtotal − total_discounts − refunds_amount` with the spec's coercion
(missing or unparsable money ↦ 0.0) applied to each operand, and the value
is identical across all of that order's rows.  (When one of those cells is
NaN — a key missing from this order while the column exists — the code
instead propagates NaN, see `c2_counterexample`.) -/
theorem c2_net_revenue (F : TsFuns) (tz : String) (c : Cols) (rep : Bool)
    (o : Order) (r : Row) (hr : r ∈ flattenOrder F tz c rep o)
    (hs : (parse_money (cellOf c.sub o.subtotal_price)).isSome = true)
    (hd : (parse_money (cellOf c.disc o.total_discounts)).isSome = true)
    (hf : (sum_refunds o.refunds).isSome = true) :
    r.net_revenue =
      some (money_spec o.subtotal_price - money_spec o.total_discounts -
        refunds_spec o.refunds) ∧
    ∀ r' ∈ flattenOrder F tz c rep o, r'.net_revenue = r.net_revenue := by
  obtain ⟨it, rfl⟩ := exists_mkRow_of_mem_flattenOrder hr
  obtain ⟨qs, hqs⟩ := Option.isSome_iff_exists.mp hs
  obtain ⟨qd, hqd⟩ := Option.isSome_iff_exists.mp hd
  have h1 := parse_money_cellOf_eq_spec c.sub o.subtotal_price qs hqs
  have h2 := parse_money_cellOf_eq_spec c.disc o.total_discounts qd hqd
  have h3 := sum_refunds_eq_spec o.refunds hf
  constructor
  · simp [mkRow, mSub, hqs, hqd, h3, h1, h2]
  · intro r' hr'
    obtain ⟨it', rfl⟩ := exists_mkRow_of_mem_flattenOrder hr'
    rfl

/-- An order with a parsable subtotal. -/
def oSubA : Order :=
  { baseOrder with
    id := some 1
    subtotal_price := .val 10
    total_discounts := .val 0
    line_items := some [liA] }

/-- An order whose `subtotal_price` key is absent (its cell is `np.nan`
because the column exists thanks to `oSubA`). -/
def oSubB : Order :=
  { baseOrder with
    id := some 2
    total_discounts := .val 0
    line_items := some [liB] }

/-- Concrete instance of `c2_net_revenue`. -/
theorem c2_witness :
    (mkRow F0 "UTC" (colsOf [oSubA]) false oSubA (some liA)).net_revenue =
      some (money_spec (JField.val 10) - money_spec (JField.val 0) -
        refunds_spec none) :=
  (c2_net_revenue F0 "UTC" (colsOf [oSubA]) false oSubA _
    (by simp [flattenOrder, oSubA, baseOrder]) (by decide) (by decide)
    (by decide)).1

/-- C2 counterexample: with `oSubB`'s subtotal missing while the column
exists, the claim predicts `net_revenue = 0 − 0 − 0 = 0.0` for its row, but
the code produces NaN (`parse_money` passes the NaN cell through and the
subtraction propagates it). -/
theorem c2_counterexample :
    (clean_orders F0 "UTC" [oSubA, oSubB]).map
      (fun t => t.map (fun r => r.net_revenue)) = .ok [some 10, none] := by
  norm_num [clean_orders, hasEmptyLineItems, flattenOrder, mkRow, colsOf,
    is_repeat_customer, tier1_cond, tier2_cond, JField.present, JField.notna,
    to_local_ts, parse_money, cellOf, sum_refunds, sum_shipping, mSum, mSub,
    mAdd, List.insertionSort, List.orderedInsert, rowLE, optIntLT, optIntLE,
    emptyItem, to_numeric_fill0, oSubA, oSubB, baseOrder, liA, liB, F0,
    Except.map]

/-- C6 (amended): every row flattened from a line item whose `price` and
`total_discount` cells are not `np.nan` satisfies
`line_net = quantity × price − line_discount` with the spec's coercions
(missing/unparsable quantity ↦ 0, unparsable or column-absent money ↦ 0.0);
the row's `quantity` always equals the coerced quantity.  (A price or
discount key missing from this item while its column exists produces a NaN
cell instead, which propagates into `line_net`, see `c6_counterexample`.) -/
theorem c6_line_net (F : TsFuns) (tz : String) (c : Cols) (rep : Bool)
    (o : Order) (it : LineItem) (l : List LineItem)
    (hl : o.line_items = some l) (hit : it ∈ l)
    (hp : cellOf c.liPrice it.price ≠ Cell.nan)
    (hd : cellOf c.liDisc it.total_discount ≠ Cell.nan) :
    mkRow F tz c rep o (some it) ∈ flattenOrder F tz c rep o ∧
    (mkRow F tz c rep o (some it)).quantity = qty_spec it.quantity ∧
    (mkRow F tz c rep o (some it)).line_net =
      some ((qty_spec it.quantity : ℚ) * money_spec it.price -
        money_spec it.total_discount) := by
  obtain ⟨qp, hqp⟩ := parse_money_isSome_of_ne_nan _ hp
  obtain ⟨qd, hqd⟩ := parse_money_isSome_of_ne_nan _ hd
  have e1 := parse_money_cellOf_eq_spec c.liPrice it.price qp hqp
  have e2 := parse_money_cellOf_eq_spec c.liDisc it.total_discount qd hqd
  have e3 := to_numeric_cellOf_eq_qty_spec c.liQty it.quantity
  refine ⟨?_, ?_, ?_⟩
  · unfold flattenOrder
    rw [hl]
    cases l with
    | nil => exact absurd hit (List.not_mem_nil it)
    | cons a as => exact List.mem_map_of_mem _ hit
  · simp [mkRow, e3]
  · simp [mkRow, mSub, hqp, hqd, e1, e2, e3]

/-- Concrete instance of `c6_line_net`. -/
theorem c6_witness :
    (mkRow F0 "UTC" (colsOf [oSubA]) false oSubA (some liA)).line_net =
      some ((qty_spec (JField.val 2) : ℚ) * money_spec (JField.val 10) -
        money_spec (JField.val 1)) :=
  (c6_line_net F0 "UTC" (colsOf [oSubA]) false oSubA liA [liA] rfl
    (List.mem_singleton.mpr rfl) (by decide) (by decide)).2.2

/-- An order carrying both a fully-populated item and an item with no
`price`/`total_discount` keys (so those columns exist but its cells are
NaN). -/
def oC6 : Order :=
  { baseOrder with
    id := some 1
    subtotal_price := .val 100
    total_discounts := .val 0
    line_items := some [liA, liNoPrice] }

/-- C6 counterexample: the claim predicts
`line_net = 3 × 0.0 − 0.0 = 0.0` for the second row (missing price and
discount coerced to 0.0), but the code produces NaN: the missing keys yield
NaN cells (their columns exist because of the first item), `float(nan)`
passes NaN through `parse_money`, and it propagates through the
arithmetic. -/
theorem c6_counterexample :
    (clean_orders F0 "UTC" [oC6]).map
      (fun t => t.map (fun r => r.line_net)) = .ok [some 19, none] := by
  norm_num [clean_orders, hasEmptyLineItems, flattenOrder, mkRow, colsOf,
    is_repeat_customer, tier1_cond, tier2_cond, JField.present, JField.notna,
    to_local_ts, parse_money, cellOf, sum_refunds, sum_shipping, mSum, mSub,
    mAdd, List.insertionSort, List.orderedInsert, rowLE, optIntLT, optIntLE,
    emptyItem, to_numeric_fill0, oC6, baseOrder, liA, liNoPrice, F0,
    Except.map]

/-- A fully-populated order whose `line_items` list is empty. -/
def orderEmpty : Order :=
  { baseOrder with
    id := some 1
    name := some "#1001"
    order_number := some 1001
    created_at := some "2024-01-02T03:04:05Z"
    currency := some "USD"
    subtotal_price := .val 100
    total_discounts := .val 5
    total_tax := .val 8
    shipping_lines := some [⟨.val 10⟩]
    refunds := some []
    line_items := some []
    customer_id := .val 7
    customer_orders_count := .val 3 }

/-- The same order with two line items. -/
def orderTwo : Order := { orderEmpty with line_items := some [liA, liB] }

/-- C1: the claim's preserve-on-empty semantics does not survive the code.
An order with N ≥ 1 line items does produce exactly N rows (second
conjunct), but a fully-populated order whose `line_items` list is empty
makes the Cleaner abort: `explode` leaves a NaN placeholder for the empty
list and `pd.json_normalize` then raises `AttributeError` on that non-dict
record, so no row is produced at all (first conjunct). -/
theorem c1_empty_line_items_crash :
    clean_orders F0 "UTC" [orderEmpty] = .error () ∧
      (clean_orders F0 "UTC" [orderTwo]).map List.length = .ok 2 := by
  constructor
  · rfl
  · rfl

/-- An order with a positive net revenue and no creation timestamp. -/
def orderNoTs : Order :=
  { baseOrder with
    id := some 1
    subtotal_price := .val 10
    total_discounts := .val 0
    line_items := some [liA] }

/-- C10: a missing or unparsable creation timestamp yields a null
`created_at_local` and null `order_date` on every row of the order; such an
order still counts in the summary metrics (1 order, revenue 10, AOV 10)
while the DailyRevenue table drops it (null group keys), so the daily sums
(empty, total 0) fall short of total revenue. -/
theorem c10_missing_timestamp :
    (∀ (F : TsFuns) (tz : String) (c : Cols) (rep : Bool) (o : Order)
      (r : Row), r ∈ flattenOrder F tz c rep o →
      (o.created_at = none ∨ o.created_at = some "" ∨
        (∃ s, o.created_at = some s ∧ F.parse s = none)) →
      r.created_at_local = none ∧ r.order_date = none) ∧
    (clean_orders F0 "UTC" [orderNoTs]).map
      (fun t => (total_orders t, total_revenue t, aov t, daily_revenue t)) =
      .ok (1, 10, 10, []) := by
  constructor
  · rintro F tz c rep o r hr h
    obtain ⟨it, rfl⟩ := exists_mkRow_of_mem_flattenOrder hr
    have hnat : to_local_ts F o.created_at tz = none := by
      rcases h with h | h | ⟨s, hs, hp⟩
      · rw [h]; rfl
      · rw [h]; simp [to_local_ts]
      · rw [hs]; simp only [to_local_ts, hp]
        split <;> rfl
    exact ⟨by simp [mkRow, hnat], by simp [mkRow, hnat]⟩
  · norm_num [clean_orders, hasEmptyLineItems, flattenOrder, mkRow, colsOf,
      is_repeat_customer, tier1_cond, tier2_cond, JField.present,
      JField.notna, to_local_ts, parse_money, cellOf, sum_refunds,
      sum_shipping, mSum, mSub, mAdd, List.insertionSort,
      List.orderedInsert, rowLE, optIntLT, optIntLE, emptyItem,
      to_numeric_fill0, orderNoTs, baseOrder, liA, F0, Except.map,
      total_orders, total_revenue, aov, daily_revenue, drop_duplicates,
      dropDupGo, sumSkipna]

/-- Concrete instance of the universally quantified part of
`c10_missing_timestamp`. -/
theorem c10_witness :
    (mkRow F0 "UTC" (colsOf [orderNoTs]) false orderNoTs
      (some liA)).created_at_local = none ∧
    (mkRow F0 "UTC" (colsOf [orderNoTs]) false orderNoTs
      (some liA)).order_date = none :=
  c10_missing_timestamp.1 F0 "UTC" (colsOf [orderNoTs]) false orderNoTs _
    (by simp [flattenOrder, orderNoTs, baseOrder]) (Or.inl rfl)

/-- A synthetic flat-table row for Reporter-level statements. -/
def mkTestRow (sku title : Option String) (qty : ℤ) (net : MVal) : Row :=
  { order_id := some 1, order_name := none, order_number := none
    order_date := none, created_at_local := none, currency := none
    is_repeat_customer := false, subtotal_price := some 0
    total_discounts := some 0, refunds_amount := some 0, total_tax := some 0
    shipping_amount := some 0, sku := sku, title := title
    variant_id := none, product_id := none, quantity := qty
    price := some 0, line_discount := some 0, line_gross := some 0
    line_net := net, net_revenue := some 0 }

/-- A flat row whose SKU is null. -/
def rowNullSku : Row := mkTestRow none (some "Widget") 5 (some 5)

/-- C5 (amended): flattening drops no rows (the table has exactly one row
per line item, null SKU or not), but the Reporter's product aggregation
drops every row whose sku or title key is null (`groupby`'s default
`dropna=True`), so a null-SKU row contributes to no TopProducts group
rather than forming its own group. -/
theorem c5_null_sku_rows (F : TsFuns) (tz : String) (orders : List Order)
    (t : List Row) (h : clean_orders F tz orders = .ok t) :
    t.length = (orders.map (fun o => (o.line_items.getD []).length)).sum ∧
    ∀ (r : Row) (rows : List Row), r.sku = none →
      products_units (r :: rows) = products_units rows ∧
      products_rev (r :: rows) = products_rev rows := by
  constructor
  · unfold clean_orders at h
    split at h
    · simp at h
    · rename_i hne
      obtain rfl := ((Except.ok.injEq _ _).mp h).symm
      rw [List.length_insertionSort, List.length_flatMap]
      congr 1
      apply List.map_congr_left
      intro o ho
      have hfalse : hasEmptyLineItems orders = false := by
        revert hne
        cases hasEmptyLineItems orders <;> simp
      have ho2 := List.any_eq_false.mp hfalse o ho
      cases hli : o.line_items with
      | none => rw [hli] at ho2; simp at ho2
      | some l =>
          cases l with
          | nil => rw [hli] at ho2; simp at ho2
          | cons a as => simp [Function.comp, flattenOrder, hli]
  · intro r rows hsku
    have hk : groupKeys (r :: rows) = groupKeys rows := by
      simp [groupKeys, List.filterMap_cons, hsku]
    have hg : ∀ k, groupRows (r :: rows) k = groupRows rows k := by
      intro k
      simp [groupRows, List.filter_cons, hsku]
    constructor
    · simp [products_units, grouped_units, hk, groupQty, hg]
    · simp [products_rev, grouped_rev, hk, groupNet, hg]

/-- Concrete instance of `c5_null_sku_rows`. -/
theorem c5_witness :
    products_units [rowNullSku] = products_units [] ∧
    products_rev [rowNullSku] = products_rev [] :=
  (c5_null_sku_rows F0 "UTC" [orderTwo] _ rfl).2 rowNullSku [] rfl

/-- C5 counterexample: a null-SKU row yields no TopProducts group at all —
the claim's "null SKU is its own grouping key" predicts one group of
quantity 5 and revenue 5, but `groupby`'s default `dropna=True` drops the
row and both rankings come out empty. -/
theorem c5_counterexample :
    products_units [rowNullSku] = [] ∧ products_rev [rowNullSku] = [] := by
  constructor <;> rfl

/-- A group-"b" row with quantity 1. -/
def rowB : Row := mkTestRow (some "b") (some "t") 1 (some 1)

/-- A group-"a" row with quantity 1, appearing after the "b" row. -/
def rowA : Row := mkTestRow (some "a") (some "t") 1 (some 1)

/-- C4 (amended): both TopProducts rankings contain at most 10 rows and are
ordered descending by their ranking metric.  Ties do NOT retain relative
input order (the grouping step emits groups in ascending (sku, title) key
order before the metric sort — see `c4_counterexample`). -/
theorem c4_top_products (rows : List Row) :
    (products_units rows).length ≤ 10 ∧ (products_rev rows).length ≤ 10 ∧
    List.Pairwise (fun a b => b.2 ≤ a.2) (products_units rows) ∧
    List.Pairwise (fun a b => b.2 ≤ a.2) (products_rev rows) := by
  haveI : IsTotal ((String × String) × ℤ) (fun a b => b.2 ≤ a.2) :=
    ⟨fun a b => le_total b.2 a.2⟩
  haveI : IsTrans ((String × String) × ℤ) (fun a b => b.2 ≤ a.2) :=
    ⟨fun a b c hab hbc => le_trans hbc hab⟩
  haveI : IsTotal ((String × String) × ℚ) (fun a b => b.2 ≤ a.2) :=
    ⟨fun a b => le_total b.2 a.2⟩
  haveI : IsTrans ((String × String) × ℚ) (fun a b => b.2 ≤ a.2) :=
    ⟨fun a b c hab hbc => le_trans hbc hab⟩
  refine ⟨List.length_take_le _ _, List.length_take_le _ _, ?_, ?_⟩
  · exact List.Pairwise.sublist (List.take_sublist _ _)
      (List.sorted_insertionSort _ _)
  · exact List.Pairwise.sublist (List.take_sublist _ _)
      (List.sorted_insertionSort _ _)

/-- C4 counterexample: two groups with equal metric values whose relative
input order is "b" before "a" (first conjunct: the group keys in
first-occurrence order) come out of the ranking as "a" before "b" (second
conjunct), because `groupby(sort=True)` reorders groups by key — so equal
metric values do not retain relative input order. -/
theorem c4_counterexample :
    groupKeys [rowB, rowA] = [("b", "t"), ("a", "t")] ∧
    products_units [rowB, rowA] = [(("a", "t"), 1), (("b", "t"), 1)] := by
  constructor <;> rfl
